import Mathlib

/-!
Verification development for the RAG chatbot backend
(`rag-chatbot-backend`): a shallow embedding in Lean 4 of the chat API
(`app/api/chat.py`), the RAG service (`app/services/rag.py`), the request
schemas (`app/models/schemas.py`) and the auth collaborator surface
(`app/services/auth_service.py`), together with theorems settling the
specification claims about session handling, retrieval, citation
de-duplication, streaming failure behaviour, feedback intake and history
pagination.

Conventions of the embedding:
* Database tables (`chat_sessions`, `chat_messages`, `feedback_ratings`)
  become lists of rows inside a `Store`; `RETURNING id` becomes a
  monotonically increasing `nextId` counter.
* External collaborators are inputs: the vector search gateway's ranked
  hits are a `List SearchResult` argument, the generation gateway's chunk
  stream is a `List String` of chunks plus an `Option String` mid-stream
  error, and `str(uuid.uuid4())` is a `freshToken` argument.
* `hashlib.sha256(token.encode()).hexdigest()` is abstracted as an
  arbitrary function argument `hash : String → String`; every place the
  source hashes is a place the embedding applies `hash`.
* Python truthiness on optional strings (`if session_token:`,
  `if selected_text:`) is modelled by the explicit emptiness tests that
  appear in the corresponding definitions.
-/

namespace RagChatbot

/-- Citation model from `app/models/schemas.py` (`Citation`): a
(chapter identifier, title, URL) triple. -/
structure Citation where
  chapter_id : String
  title : String
  url : String
  deriving Repr, DecidableEq

/-- Payload metadata attached to one vector-search hit, as read by
`RAGService.search_relevant_chunks` via `payload.get`: the chunk text, the
chapter identifier and the chapter title (absent keys default to `""` in
the source, so plain `String` fields suffice). -/
structure SearchPayload where
  text : String
  chapter_id : String
  chapter_title : String
  deriving Repr, DecidableEq

/-- One ranked hit returned by the vector search gateway
(`qdrant_client.search`): payload plus similarity score.  Scores are
carried around but never computed with on the query path, so they are
embedded as rationals. -/
structure SearchResult where
  payload : SearchPayload
  score : Rat
  deriving Repr, DecidableEq

/-- Result of RAG retrieval, from `app/models/schemas.py` (`RAGResult`):
ordered chunk texts, deduplicated citations, and the parallel score
list. -/
structure RAGResult where
  chunks : List String
  citations : List Citation
  similarity_scores : List Rat
  deriving Repr, DecidableEq

/-- Embedding of `RAGService._build_chapter_url`: split the chapter id on `"."`; with
at least two parts build `/docs/module-M/chapter-C` (prefixed by `/ur`
for Urdu), otherwise fall back to `/docs/<id>` (or `/ur/docs/<id>`). -/
def buildChapterUrl (chapter_id language : String) : String :=
  let parts := chapter_id.splitOn "."
  if parts.length ≥ 2 then
    let module := parts.headD ""
    let chapter := String.intercalate "." parts.tail
    if language = "ur" then
      "/ur/docs/module-" ++ module ++ "/chapter-" ++ chapter
    else
      "/docs/module-" ++ module ++ "/chapter-" ++ chapter
  else
    if language = "en" then "/docs/" ++ chapter_id else "/ur/docs/" ++ chapter_id

/-- Embedding of `RAGService._get_fallback_message`: the fixed reply used when no
passage clears the similarity threshold, per language.  The strings are
the exact source literals (`\x27` encodes the ASCII apostrophe). -/
def fallbackMessage (language : String) : String :=
  if language = "ur" then
    "معذرت، مجھے آپ کے سوال سے متعلق کتاب میں کوئی معلومات نہیں ملی۔ \nبراہ کرم اپنا سوال مختلف الفاظ میں پوچھنے کی کوشش کریں یا Physical AI اور روبوٹکس سے متعلق کوئی اور سوال پوچھیں۔"
  else
    "I couldn\x27t find relevant information in the textbook for your question. \nThis might be because:\n- The topic isn\x27t covered in the current chapters\n- Your question is too broad or too specific\n- There\x27s a typo or unclear phrasing\n\nPlease try rephrasing your question or ask about topics related to Physical AI, robotics, kinematics, or control systems covered in the textbook."

/-- Chunk-text assembly inside the retrieval loop of
`search_relevant_chunks`: when a (truthy, i.e. nonempty) `selected_text`
was supplied, prepend `[Selected Text: <first 200 chars>...]` plus a
blank line to the payload text. -/
def chunkText (selected : Option String) (payloadText : String) : String :=
  match selected with
  | some sel =>
      if sel ≠ "" then
        "[Selected Text: " ++ sel.take 200 ++ "...]" ++ "\n\n" ++ payloadText
      else payloadText
  | none => payloadText

/-- Citation constructed from one search hit inside the retrieval loop of
`search_relevant_chunks`. -/
def mkCitation (language : String) (r : SearchResult) : Citation :=
  { chapter_id := r.payload.chapter_id
    title := r.payload.chapter_title
    url := buildChapterUrl r.payload.chapter_id language }

/-- The citation-collecting part of the retrieval loop of
`search_relevant_chunks`: walk the hits in rank order, skip empty chapter
ids and chapter ids already in `seen_chapters`, and otherwise emit a
citation and mark the chapter as seen. -/
def buildCitations (language : String) : List String → List SearchResult → List Citation
  | _, [] => []
  | seen, r :: rs =>
      let cid := r.payload.chapter_id
      if cid ≠ "" ∧ cid ∉ seen then
        mkCitation language r :: buildCitations language (cid :: seen) rs
      else
        buildCitations language seen rs

/-- Embedding of `RAGService.search_relevant_chunks`, given the gateway's ranked hits:
empty hits short-circuit to an empty `RAGResult`; otherwise chunks are the
payload texts (with the selected-text excerpt prepended when supplied),
scores run parallel to chunks, and citations are deduplicated by chapter
id with first occurrence winning. -/
def searchRelevantChunks (results : List SearchResult) (language : String)
    (selected : Option String) : RAGResult :=
  if results = [] then
    { chunks := [], citations := [], similarity_scores := [] }
  else
    { chunks := results.map (fun r => chunkText selected r.payload.text)
      citations := buildCitations language [] results
      similarity_scores := results.map (fun r => r.score) }

/-- Embedding of `RAGService.generate_streaming_response`, with the generation
gateway's behaviour supplied as inputs (`genChunks` = the chunks the
gateway yields, `genError` = a mid-stream exception message, if any).
Returns the chunk sequence the generator yields, the error that
interrupts it (if any), and whether the generation gateway was called at
all: on an empty chunk list the fixed fallback message is yielded as a
single chunk and the gateway is never invoked. -/
def generateStreamingResponse (genChunks : List String) (genError : Option String)
    (ragResult : RAGResult) (language : String) :
    List String × Option String × Bool :=
  if ragResult.chunks = [] then
    ([fallbackMessage language], none, false)
  else
    (genChunks, genError, true)

/-- Embedding of `RAGService.query`: search, then stream generation over the search
result. -/
def ragQuery (results : List SearchResult) (genChunks : List String)
    (genError : Option String) (language : String) (selected : Option String) :
    RAGResult × (List String × Option String × Bool) :=
  let rr := searchRelevantChunks results language selected
  (rr, generateStreamingResponse genChunks genError rr language)

/-- Row of the `chat_sessions` table: internal id, optional bound user,
the stored (hashed) session token — `none` models SQL `NULL` after
migration — the language tag and the last-activity timestamp. -/
structure SessionRow where
  id : Nat
  user_id : Option String
  session_token : Option String
  language : String
  last_activity : Nat
  deriving Repr, DecidableEq

/-- Structured metadata stored with an assistant `chat_messages` row
(`save_message` serialises `citations` and `similarity_scores`; user
turns get the empty metadata object). -/
structure MsgMeta where
  citations : List Citation
  similarity_scores : List Rat
  deriving Repr, DecidableEq

/-- Row of the `chat_messages` table. -/
structure ChatMessageRow where
  id : Nat
  session_id : Nat
  role : String
  content : String
  metadata : MsgMeta
  created_at : Nat
  deriving Repr, DecidableEq

/-- Row of the `feedback_ratings` table. -/
structure FeedbackRow where
  id : Nat
  message_id : Nat
  rating : Int
  feedback_text : Option String
  deriving Repr, DecidableEq

/-- The database state touched by the chat API: the three tables plus the
id counter standing in for `RETURNING id`. -/
structure Store where
  sessions : List SessionRow
  messages : List ChatMessageRow
  feedbacks : List FeedbackRow
  nextId : Nat
  deriving Repr, DecidableEq

/-- The empty database. -/
def emptyStore : Store :=
  { sessions := [], messages := [], feedbacks := [], nextId := 1 }

/-- The source helper `hash_session_token` is `sha256(token).hexdigest()` in the source; the
embedding abstracts it as a function argument.  This predicate is the SQL
comparison `WHERE session_token = $1` applied to the hashed presented
token, shared by `/chat/query` session resolution, `/chat/history` and
`/chat/migrate`. -/
def sessionTokenMatches (hash : String → String) (tok : String) (s : SessionRow) : Bool :=
  s.session_token == some (hash tok)

/-- Embedding of `SELECT id FROM chat_sessions WHERE session_token = $1` on the hashed
presented token (first matching row). -/
def findSessionByToken (hash : String → String) (st : Store) (tok : String) :
    Option SessionRow :=
  st.sessions.find? (sessionTokenMatches hash tok)

/-- Embedding of `UPDATE chat_sessions SET last_activity = NOW() WHERE id = $1`. -/
def touchSession (now sid : Nat) (sessions : List SessionRow) : List SessionRow :=
  sessions.map (fun s => if s.id = sid then { s with last_activity := now } else s)

/-- Embedding of `INSERT INTO chat_sessions (user_id, session_token, language) VALUES
($1, $2, $3) RETURNING id` with the hashed token. -/
def insertSession (hash : String → String) (st : Store) (newToken : String)
    (userId : Option String) (language : String) (now : Nat) : Store × Nat :=
  let sid := st.nextId
  ({ st with
      sessions := st.sessions ++
        [{ id := sid, user_id := userId, session_token := some (hash newToken),
           language := language, last_activity := now }]
      nextId := sid + 1 },
   sid)

/-- Embedding of `get_or_create_session` from `app/api/chat.py`: when a truthy token is
presented, look it up by hash; on a hit, bump last-activity and return the
existing id with the same token; otherwise create a new row.  The created
row stores `hash(new_token)` where `new_token = session_token or
str(uuid.uuid4())`, i.e. the presented token is reused when present and
nonempty, and the fresh uuid (`freshToken`) is used only otherwise.
Returns (store, session id, effective token). -/
def getOrCreateSession (hash : String → String) (freshToken : String) (st : Store)
    (presented : Option String) (language : String) (userId : Option String)
    (now : Nat) : Store × Nat × String :=
  match presented with
  | some tok =>
      if tok ≠ "" then
        match findSessionByToken hash st tok with
        | some s =>
            ({ st with sessions := touchSession now s.id st.sessions }, s.id, tok)
        | none =>
            let r := insertSession hash st tok userId language now
            (r.1, r.2, tok)
      else
        let r := insertSession hash st freshToken userId language now
        (r.1, r.2, freshToken)
  | none =>
      let r := insertSession hash st freshToken userId language now
      (r.1, r.2, freshToken)

/-- The empty metadata object (`metadata or` an empty dict in
`save_message`). -/
def emptyMeta : MsgMeta :=
  { citations := [], similarity_scores := [] }

/-- Embedding of `save_message`: `INSERT INTO chat_messages (session_id, role, content,
metadata) VALUES (...) RETURNING id`. -/
def saveMessage (st : Store) (sessionId : Nat) (role content : String)
    (metadata : MsgMeta) (now : Nat) : Store × Nat :=
  let mid := st.nextId
  ({ st with
      messages := st.messages ++
        [{ id := mid, session_id := sessionId, role := role, content := content,
           metadata := metadata, created_at := now }]
      nextId := mid + 1 },
   mid)

/-- Server-sent events emitted by `/chat/query`'s `event_generator`:
per-chunk data events, the success terminal event (`done: true` with
message id, session token and citations), and the terminal error event
(`error: "streaming_failed"` with the exception message and the request
id). -/
inductive SSEEvent where
  | chunk (text : String)
  | done (message_id : Nat) (session_token : String) (citations : List Citation)
  | error (error message request_id : String)
  deriving Repr, DecidableEq

/-- Embedding of `event_generator` from `chat_query`: relay every chunk the stream
yields; if the stream ends normally, persist the accumulated text as the
assistant turn and emit the `done` terminal event; if the stream raises
after `chunks` were already relayed, emit the terminal error event
instead — the assistant turn is never persisted on that path. -/
def eventGenerator (st : Store) (sessionId : Nat) (sessionToken : String)
    (rr : RAGResult) (chunks : List String) (streamErr : Option String)
    (requestId : String) (now : Nat) : Store × List SSEEvent :=
  match streamErr with
  | some e =>
      (st, chunks.map SSEEvent.chunk ++ [SSEEvent.error "streaming_failed" e requestId])
  | none =>
      let full := String.join chunks
      let r := saveMessage st sessionId "assistant" full
        { citations := rr.citations, similarity_scores := rr.similarity_scores } now
      (r.1, chunks.map SSEEvent.chunk ++ [SSEEvent.done r.2 sessionToken rr.citations])

/-- The body of `chat_query`'s `try` block: resolve the session, persist
the user turn, run the RAG pipeline (`rag_service.query`) and drive
`event_generator`.  Returns the final store, the event list, and whether
the generation gateway was called. -/
def chatQueryCore (hash : String → String) (freshToken : String) (st : Store)
    (query : String) (presented : Option String) (language : String)
    (selected : Option String) (userId : Option String)
    (results : List SearchResult) (genChunks : List String)
    (genError : Option String) (requestId : String) (now : Nat) :
    Store × List SSEEvent × Bool :=
  let g := getOrCreateSession hash freshToken st presented language userId now
  let sm := saveMessage g.1 g.2.1 "user" query emptyMeta now
  let rq := ragQuery results genChunks genError language selected
  let ev := eventGenerator sm.1 g.2.1 g.2.2 rq.1 rq.2.1 rq.2.2.1 requestId now
  (ev.1, ev.2, rq.2.2.2)

/-- Minimal user record returned by the auth collaborator. -/
structure UserRec where
  id : String
  deriving Repr, DecidableEq

/-- Outcome of evaluating a piece of Python: a value, or a raised
exception carrying its message. -/
inductive PyResult (α : Type) where
  | ok (value : α)
  | exn (message : String)
  deriving Repr, DecidableEq

/-- The methods the `AuthService` class in
`app/services/auth_service.py` actually defines.  Python resolves method
calls by name at run time, so `get_current_user_optional`'s call
`auth_service.verify_session(...)` succeeds only if this list contains
`"verify_session"` — it does not, so that call raises `AttributeError`. -/
def authServiceMethods : List String :=
  ["__init__", "signup", "login", "refresh_access_token", "logout",
   "verify_access_token", "get_preferences", "update_preferences"]

/-- Embedding of `get_current_user_optional` from `app/api/chat.py`: without a
`Bearer `-prefixed header return `None`; otherwise strip the prefix and
call `auth_service.verify_session(session_token)`.  `verifySessionImpl`
stands for what that method would return if `AuthService` defined it;
since it does not, Python's attribute lookup raises instead. -/
def getCurrentUserOptional (verifySessionImpl : String → Option UserRec)
    (authorization : Option String) : PyResult (Option UserRec) :=
  match authorization with
  | none => PyResult.ok none
  | some a =>
      if !("Bearer ".data.isPrefixOf a.data) then PyResult.ok none
      else
        let sessionToken := a.replace "Bearer " ""
        if authServiceMethods.contains "verify_session" then
          PyResult.ok (verifySessionImpl sessionToken)
        else
          PyResult.exn "AttributeError: AuthService object has no attribute verify_session"

/-- The HTTP-level outcome of `POST /chat/query`: either the SSE stream
(with final store and gateway-called flag) or an HTTP error status. -/
inductive EndpointResult where
  | stream (st : Store) (events : List SSEEvent) (gatewayCalled : Bool)
  | httpError (status : Nat) (detail : String)
  deriving Repr, DecidableEq

/-- Embedding of the `chat_query` endpoint: identity resolution runs before the handler's
`try` block, so an exception raised there is unhandled and surfaces as
the framework's 500 response; otherwise the resolved (optional) user id
feeds the core pipeline. -/
def chatQueryEndpoint (hash : String → String) (freshToken : String) (st : Store)
    (query : String) (presented : Option String) (language : String)
    (selected : Option String) (authorization : Option String)
    (verifySessionImpl : String → Option UserRec)
    (results : List SearchResult) (genChunks : List String)
    (genError : Option String) (requestId : String) (now : Nat) : EndpointResult :=
  match getCurrentUserOptional verifySessionImpl authorization with
  | PyResult.exn e => EndpointResult.httpError 500 e
  | PyResult.ok currentUser =>
      let userId := currentUser.map (fun u => u.id)
      let r := chatQueryCore hash freshToken st query presented language selected
        userId results genChunks genError requestId now
      EndpointResult.stream r.1 r.2.1 r.2.2

/-- Stable insertion by `created_at` (ascending), used to express the SQL
`ORDER BY created_at ASC` with ties broken by insertion order. -/
def insertByTime (m : ChatMessageRow) : List ChatMessageRow → List ChatMessageRow
  | [] => [m]
  | x :: xs =>
      if m.created_at ≤ x.created_at then m :: x :: xs else x :: insertByTime m xs

/-- Stable sort by `created_at` ascending. -/
def sortByTime : List ChatMessageRow → List ChatMessageRow
  | [] => []
  | x :: xs => insertByTime x (sortByTime xs)

/-- One page of `/chat/history` (`ChatHistoryResponse`). -/
structure HistoryPage where
  messages : List ChatMessageRow
  session_id : Nat
  has_more : Bool
  total_count : Nat
  deriving Repr, DecidableEq

/-- Embedding of `get_chat_history` from `app/api/chat.py`: resolve the session by
hashed token (404 when unresolvable), count the session's messages, page
through them ordered by creation time ascending with `LIMIT`/`OFFSET`,
and report `has_more = (offset + limit) < total_count`. -/
def getChatHistory (hash : String → String) (st : Store) (token : String)
    (limit offset : Nat) : Except Nat HistoryPage :=
  match findSessionByToken hash st token with
  | none => Except.error 404
  | some s =>
      let sessionMsgs := st.messages.filter (fun m => m.session_id == s.id)
      let total := sessionMsgs.length
      let page := ((sortByTime sessionMsgs).drop offset).take limit
      Except.ok
        { messages := page, session_id := s.id,
          has_more := decide (offset + limit < total), total_count := total }

/-- The rating validation of `FeedbackRequest` in
`app/models/schemas.py`: the field constraints `ge=-1, le=1` together
with the `validate_rating` validator restricting the value to `1` or
`-1`.  Pydantic runs this while parsing the request body, before the
handler can touch storage. -/
def validFeedbackRating (rating : Int) : Bool :=
  (decide (-1 ≤ rating) && decide (rating ≤ 1)) && (rating == 1 || rating == -1)

/-- Embedding of `submit_feedback` from `app/api/chat.py`, composed with the pydantic
request validation: an invalid rating is rejected with 422 before the
handler runs; then `SELECT id FROM chat_messages WHERE id = $1 AND role =
'assistant'` gates the insert — no row means 404 and no write. -/
def submitFeedback (st : Store) (messageId : Nat) (rating : Int)
    (feedbackText : Option String) : Store × Except Nat Nat :=
  if !(validFeedbackRating rating) then (st, Except.error 422)
  else
    match st.messages.find? (fun m => m.id == messageId && m.role == "assistant") with
    | none => (st, Except.error 404)
    | some _ =>
        let fid := st.nextId
        ({ st with
            feedbacks := st.feedbacks ++
              [{ id := fid, message_id := messageId, rating := rating,
                 feedback_text := feedbackText }]
            nextId := fid + 1 },
         Except.ok fid)

/-- Embedding of `migrate_session` from `app/api/chat.py`: look the session up by
hashed token (404 when absent), then in a single `UPDATE` bind the user
id and set `session_token = NULL`. -/
def migrateSession (hash : String → String) (st : Store) (token userId : String) :
    Store × Except Nat Unit :=
  match findSessionByToken hash st token with
  | none => (st, Except.error 404)
  | some s =>
      ({ st with
          sessions := st.sessions.map (fun x =>
            if x.id = s.id then { x with user_id := some userId, session_token := none }
            else x) },
       Except.ok ())

/-- Invariant of the session store: every non-`NULL` value in the
`session_token` column is in the image of the hash function, i.e. a
one-way hash of some raw token — never a raw token itself. -/
def goodStore (hash : String → String) (st : Store) : Prop :=
  ∀ s ∈ st.sessions, ∀ t, s.session_token = some t → ∃ raw, t = hash raw

/-- Concrete stand-in for `sha256(...).hexdigest()` used by witnesses and
counterexamples. -/
def demoHash (s : String) : String :=
  "sha256-hex-" ++ s

/-! ## Theorems -/

/-- Claim C5: for every query where the vector search returns zero results
at or above the similarity threshold, the RAG result has empty citation
and score lists, the stream delivered to the client consists of exactly
the fixed language-specific fallback message followed by the success
terminal event with empty citations, and the generation gateway is never
called. -/
theorem no_relevant_content_fallback (hash : String → String) (freshToken : String)
    (st : Store) (query : String) (presented : Option String) (language : String)
    (selected : Option String) (userId : Option String) (genChunks : List String)
    (genError : Option String) (requestId : String) (now : Nat) :
    (ragQuery [] genChunks genError language selected).1.citations = [] ∧
    (ragQuery [] genChunks genError language selected).1.similarity_scores = [] ∧
    (ragQuery [] genChunks genError language selected).2 =
      ([fallbackMessage language], none, false) ∧
    (chatQueryCore hash freshToken st query presented language selected userId []
        genChunks genError requestId now).2.2 = false ∧
    (∃ mid tok,
      (chatQueryCore hash freshToken st query presented language selected userId []
          genChunks genError requestId now).2.1 =
        [SSEEvent.chunk (fallbackMessage language), SSEEvent.done mid tok []]) := by
  exact ⟨rfl, rfl, rfl, rfl, _, _, rfl⟩

/-- Claim C7: when a (nonempty) `selectedText` is supplied, every chunk
used as generation context is the corresponding raw passage text with the
bounded 200-character excerpt of the selection prepended, while the
citations and the score list are exactly those computed from the raw
payload alone. -/
theorem selected_text_context_only (results : List SearchResult) (language : String)
    (sel : String) (h : sel ≠ "") :
    (searchRelevantChunks results language (some sel)).chunks =
      (searchRelevantChunks results language none).chunks.map
        (fun c => "[Selected Text: " ++ sel.take 200 ++ "...]" ++ "\n\n" ++ c) ∧
    (searchRelevantChunks results language (some sel)).citations =
      (searchRelevantChunks results language none).citations ∧
    (searchRelevantChunks results language (some sel)).similarity_scores =
      (searchRelevantChunks results language none).similarity_scores := by
  by_cases hr : results = [] <;>
    simp [searchRelevantChunks, hr, chunkText, h, List.map_map, Function.comp]

/-- Witness for `selected_text_context_only` at a concrete search result
and selection. -/
theorem selected_text_context_only_witness :
    ("physics" ≠ "") ∧
    ((searchRelevantChunks
        [{ payload := { text := "Robots move.", chapter_id := "2.1.3",
                        chapter_title := "Kinematics" }, score := (9 : Rat) / 10 }]
        "en" (some "physics")).chunks =
      (searchRelevantChunks
        [{ payload := { text := "Robots move.", chapter_id := "2.1.3",
                        chapter_title := "Kinematics" }, score := (9 : Rat) / 10 }]
        "en" none).chunks.map
          (fun c => "[Selected Text: " ++ "physics".take 200 ++ "...]" ++ "\n\n" ++ c) ∧
     (searchRelevantChunks
        [{ payload := { text := "Robots move.", chapter_id := "2.1.3",
                        chapter_title := "Kinematics" }, score := (9 : Rat) / 10 }]
        "en" (some "physics")).citations =
      (searchRelevantChunks
        [{ payload := { text := "Robots move.", chapter_id := "2.1.3",
                        chapter_title := "Kinematics" }, score := (9 : Rat) / 10 }]
        "en" none).citations ∧
     (searchRelevantChunks
        [{ payload := { text := "Robots move.", chapter_id := "2.1.3",
                        chapter_title := "Kinematics" }, score := (9 : Rat) / 10 }]
        "en" (some "physics")).similarity_scores =
      (searchRelevantChunks
        [{ payload := { text := "Robots move.", chapter_id := "2.1.3",
                        chapter_title := "Kinematics" }, score := (9 : Rat) / 10 }]
        "en" none).similarity_scores) :=
  ⟨by decide,
   selected_text_context_only
     [{ payload := { text := "Robots move.", chapter_id := "2.1.3",
                     chapter_title := "Kinematics" }, score := (9 : Rat) / 10 }]
     "en" "physics" (by decide)⟩

/-- Claim C3 counterexample: with an empty store (so the presented token
matches no stored session hash), `get_or_create_session` returns the very
token the client presented — `new_token = session_token or uuid4()` reuses
the presented token — so the returned token is neither fresh nor different
from nor independent of the presented one. -/
theorem minted_token_reuses_presented_counterexample :
    findSessionByToken demoHash emptyStore "client-chosen-token" = none ∧
    (getOrCreateSession demoHash "fresh-random-uuid" emptyStore
        (some "client-chosen-token") "en" none 0).2.2 = "client-chosen-token" ∧
    "client-chosen-token" ≠ "fresh-random-uuid" := by
  refine ⟨rfl, rfl, by decide⟩

/-- Claim C3 (amended): when the presented token is nonempty and matches
no stored session hash, a new session row is created (bound to the user
if present, storing only the hash), but the returned token is the
presented token itself, reused; a fresh token is minted only when no
token is presented (and then its hash is what gets stored). -/
theorem session_miss_creates_row (hash : String → String) (freshToken : String)
    (st : Store) (tok language : String) (userId : Option String) (now : Nat)
    (htok : tok ≠ "") (hmiss : findSessionByToken hash st tok = none) :
    getOrCreateSession hash freshToken st (some tok) language userId now =
      ({ st with
          sessions := st.sessions ++
            [{ id := st.nextId, user_id := userId, session_token := some (hash tok),
               language := language, last_activity := now }]
          nextId := st.nextId + 1 },
       st.nextId, tok) ∧
    getOrCreateSession hash freshToken st none language userId now =
      ({ st with
          sessions := st.sessions ++
            [{ id := st.nextId, user_id := userId,
               session_token := some (hash freshToken),
               language := language, last_activity := now }]
          nextId := st.nextId + 1 },
       st.nextId, freshToken) := by
  constructor
  · simp [getOrCreateSession, htok, hmiss, insertSession]
  · simp [getOrCreateSession, insertSession]

/-- Witness for `session_miss_creates_row` at a concrete store and
token. -/
theorem session_miss_creates_row_witness :
    ("client-tok" ≠ "" ∧ findSessionByToken demoHash emptyStore "client-tok" = none) ∧
    (getOrCreateSession demoHash "uuid-1" emptyStore (some "client-tok") "en" none 0 =
      ({ sessions :=
            [{ id := 1, user_id := none,
               session_token := some (demoHash "client-tok"),
               language := "en", last_activity := 0 }],
          messages := [], feedbacks := [], nextId := 2 },
       1, "client-tok") ∧
     getOrCreateSession demoHash "uuid-1" emptyStore none "en" none 0 =
      ({ sessions :=
            [{ id := 1, user_id := none,
               session_token := some (demoHash "uuid-1"),
               language := "en", last_activity := 0 }],
          messages := [], feedbacks := [], nextId := 2 },
       1, "uuid-1")) :=
  ⟨⟨by decide, rfl⟩,
   session_miss_creates_row demoHash "uuid-1" emptyStore "client-tok" "en" none 0
     (by decide) rfl⟩

/-- Claim C2 is refuted by the code (the claim states the intended,
documented behaviour): `get_current_user_optional` calls
`auth_service.verify_session`, a method `AuthService` does not define, so
every `/chat/query` request carrying a `Bearer` credential raises
`AttributeError` before the handler's `try` block and is rejected with
the framework's 500 response instead of proceeding as anonymous. -/
theorem bearer_credential_rejected :
    getCurrentUserOptional (fun _ => none) (some "Bearer some-jwt-token") =
      PyResult.exn "AttributeError: AuthService object has no attribute verify_session" ∧
    chatQueryEndpoint demoHash "fresh-uuid" emptyStore "What is a humanoid robot?" none
        "en" none (some "Bearer some-jwt-token") (fun _ => none) [] [] none "req-1" 0 =
      EndpointResult.httpError 500
        "AttributeError: AuthService object has no attribute verify_session" := by
  constructor <;> rfl

/-- Claim C9: feedback submission fails with 404 when no stored message
has the target id with role `assistant` (covering both a nonexistent id
and a `user`-role target), leaving the store untouched; and ratings `0`
and `2` are rejected by request validation (422) before any storage side
effect, whatever the store contains. -/
theorem feedback_validation_and_not_found (st : Store) (mid : Nat)
    (text : Option String) (rating : Int)
    (hrating : rating = 1 ∨ rating = -1)
    (hmiss : ∀ m ∈ st.messages, m.id = mid → m.role ≠ "assistant") :
    submitFeedback st mid rating text = (st, Except.error 404) ∧
    submitFeedback st mid 0 text = (st, Except.error 422) ∧
    submitFeedback st mid 2 text = (st, Except.error 422) := by
  refine ⟨?_, rfl, rfl⟩
  have hvalid : validFeedbackRating rating = true := by
    rcases hrating with h | h <;> subst h <;> decide
  have hfind :
      st.messages.find? (fun m => m.id == mid && m.role == "assistant") = none := by
    apply List.find?_eq_none.mpr
    intro m hm hp
    simp only [Bool.and_eq_true, beq_iff_eq] at hp
    exact hmiss m hm hp.1 hp.2
  simp [submitFeedback, hvalid, hfind]

/-- Concrete store for the feedback witness: one `user`-role message with
id 5 and nothing else. -/
def feedbackDemoStore : Store :=
  { sessions := [],
    messages := [{ id := 5, session_id := 1, role := "user", content := "hi",
                   metadata := emptyMeta, created_at := 0 }],
    feedbacks := [], nextId := 6 }

/-- Witness for `feedback_validation_and_not_found`: rating a `user`-role
message 404s, ratings 0 and 2 are rejected with the store unchanged, and
rating a nonexistent id on the empty store 404s. -/
theorem feedback_validation_and_not_found_witness :
    ((1 : Int) = 1 ∨ (1 : Int) = -1) ∧
    (∀ m ∈ feedbackDemoStore.messages, m.id = 5 → m.role ≠ "assistant") ∧
    (submitFeedback feedbackDemoStore 5 1 none = (feedbackDemoStore, Except.error 404) ∧
     submitFeedback feedbackDemoStore 5 0 none = (feedbackDemoStore, Except.error 422) ∧
     submitFeedback feedbackDemoStore 5 2 none = (feedbackDemoStore, Except.error 422)) ∧
    submitFeedback emptyStore 77 1 none = (emptyStore, Except.error 404) :=
  ⟨Or.inl rfl, by decide,
   feedback_validation_and_not_found feedbackDemoStore 5 none 1 (Or.inl rfl) (by decide),
   (feedback_validation_and_not_found emptyStore 77 none 1 (Or.inl rfl) (by decide)).1⟩

/-- Lemma: `insertByTime` grows the list by one. -/
theorem insertByTime_length (m : ChatMessageRow) (l : List ChatMessageRow) :
    (insertByTime m l).length = l.length + 1 := by
  induction l with
  | nil => rfl
  | cons x xs ih =>
      by_cases h : m.created_at ≤ x.created_at <;> simp [insertByTime, h, ih]

/-- Lemma: `sortByTime` preserves length. -/
theorem sortByTime_length (l : List ChatMessageRow) :
    (sortByTime l).length = l.length := by
  induction l with
  | nil => rfl
  | cons x xs ih => simp [sortByTime, insertByTime_length, ih]

/-- Claim C10: every history page request on an existing session succeeds,
reports the session's full message count, computes
`has_more = (offset + limit < total_count)`, and returns
`min limit (total_count - offset)` messages. -/
theorem history_pagination (hash : String → String) (st : Store) (token : String)
    (limit offset : Nat) (s : SessionRow)
    (hfind : findSessionByToken hash st token = some s) :
    ∃ page, getChatHistory hash st token limit offset = Except.ok page ∧
      page.session_id = s.id ∧
      page.total_count = (st.messages.filter (fun m => m.session_id == s.id)).length ∧
      page.has_more = decide (offset + limit < page.total_count) ∧
      page.messages.length = min limit (page.total_count - offset) := by
  unfold getChatHistory
  rw [hfind]
  refine ⟨_, rfl, rfl, rfl, rfl, ?_⟩
  simp [List.length_take, List.length_drop, sortByTime_length]

/-- Session row used by the pagination witness. -/
def historySession : SessionRow :=
  { id := 1, user_id := none, session_token := some (demoHash "tok-h"),
    language := "en", last_activity := 0 }

/-- Concrete store for the pagination witness: one session with five
messages. -/
def historyDemoStore : Store :=
  { sessions := [historySession],
    messages :=
      [{ id := 10, session_id := 1, role := "user", content := "q1",
         metadata := emptyMeta, created_at := 1 },
       { id := 11, session_id := 1, role := "assistant", content := "a1",
         metadata := emptyMeta, created_at := 2 },
       { id := 12, session_id := 1, role := "user", content := "q2",
         metadata := emptyMeta, created_at := 3 },
       { id := 13, session_id := 1, role := "assistant", content := "a2",
         metadata := emptyMeta, created_at := 4 },
       { id := 14, session_id := 1, role := "user", content := "q3",
         metadata := emptyMeta, created_at := 5 }],
    feedbacks := [], nextId := 15 }

/-- Witness for `history_pagination` on a 5-message session: `limit=2,
offset=0` yields 2 messages with `has_more = true`; `limit=2, offset=4`
yields 1 message with `has_more = false`. -/
theorem history_pagination_witness :
    (findSessionByToken demoHash historyDemoStore "tok-h" = some historySession) ∧
    (∃ page, getChatHistory demoHash historyDemoStore "tok-h" 2 0 = Except.ok page ∧
      page.session_id = historySession.id ∧
      page.total_count =
        (historyDemoStore.messages.filter
          (fun m => m.session_id == historySession.id)).length ∧
      page.has_more = decide (0 + 2 < page.total_count) ∧
      page.messages.length = min 2 (page.total_count - 0)) ∧
    (∃ page, getChatHistory demoHash historyDemoStore "tok-h" 2 4 = Except.ok page ∧
      page.session_id = historySession.id ∧
      page.total_count =
        (historyDemoStore.messages.filter
          (fun m => m.session_id == historySession.id)).length ∧
      page.has_more = decide (4 + 2 < page.total_count) ∧
      page.messages.length = min 2 (page.total_count - 4)) ∧
    (∃ p, getChatHistory demoHash historyDemoStore "tok-h" 2 0 = Except.ok p ∧
      p.messages.length = 2 ∧ p.has_more = true) ∧
    (∃ q, getChatHistory demoHash historyDemoStore "tok-h" 2 4 = Except.ok q ∧
      q.messages.length = 1 ∧ q.has_more = false) :=
  ⟨rfl,
   history_pagination demoHash historyDemoStore "tok-h" 2 0 historySession rfl,
   history_pagination demoHash historyDemoStore "tok-h" 2 4 historySession rfl,
   ⟨_, rfl, rfl, rfl⟩, ⟨_, rfl, rfl, rfl⟩⟩

/-- Lemma: `insertSession` preserves the hashed-token invariant: the appended row
stores `hash newToken`. -/
theorem goodStore_insertSession (hash : String → String) (st : Store)
    (newToken : String) (userId : Option String) (language : String) (now : Nat)
    (hgood : goodStore hash st) :
    goodStore hash (insertSession hash st newToken userId language now).1 := by
  intro s hs t ht
  simp only [insertSession, List.mem_append, List.mem_singleton] at hs
  rcases hs with hs | rfl
  · exact hgood s hs t ht
  · simp only at ht
    exact ⟨newToken, (Option.some.injEq _ _ ▸ ht.symm : t = hash newToken)⟩

/-- Bumping `last_activity` preserves the hashed-token invariant. -/
theorem goodStore_touch (hash : String → String) (st : Store) (now sid : Nat)
    (hgood : goodStore hash st) :
    goodStore hash { st with sessions := touchSession now sid st.sessions } := by
  intro s hs t ht
  simp only [touchSession, List.mem_map] at hs
  obtain ⟨orig, horig, rfl⟩ := hs
  by_cases h : orig.id = sid
  · simp only [h, if_pos rfl] at ht ⊢
    exact hgood orig horig t ht
  · simp only [if_neg h] at ht
    exact hgood orig horig t ht

/-- Claim C4: session-store writes only ever persist hashes in the
`session_token` column and lookups compare against the hash of the
presented token.  If every stored token value is in the hash image, it
still is after `get_or_create_session` (creation/lookup) and after
`migrate_session` (which only clears the column); and any successful
token lookup matched exactly `hash(presented)`. -/
theorem tokens_stored_hashed (hash : String → String) (freshToken : String)
    (st : Store) (presented : Option String) (language : String)
    (userId : Option String) (now : Nat) (tok mtok muid : String)
    (hgood : goodStore hash st) :
    goodStore hash (getOrCreateSession hash freshToken st presented language userId now).1 ∧
    goodStore hash (migrateSession hash st mtok muid).1 ∧
    (∀ s, findSessionByToken hash st tok = some s →
      s.session_token = some (hash tok)) := by
  refine ⟨?_, ?_, ?_⟩
  · cases presented with
    | none => exact goodStore_insertSession hash st freshToken userId language now hgood
    | some ptok =>
        by_cases h : ptok = ""
        · simp only [getOrCreateSession, h]
          simp only [ne_eq, not_true_eq_false, if_false]
          exact goodStore_insertSession hash st freshToken userId language now hgood
        · simp only [getOrCreateSession, ne_eq, h, not_false_eq_true, if_true]
          cases hf : findSessionByToken hash st ptok with
          | some s0 => exact goodStore_touch hash st now s0.id hgood
          | none => exact goodStore_insertSession hash st ptok userId language now hgood
  · unfold migrateSession
    cases hf : findSessionByToken hash st mtok with
    | none => exact hgood
    | some s0 =>
        intro s hs t ht
        simp only [List.mem_map] at hs
        obtain ⟨orig, horig, rfl⟩ := hs
        by_cases h : orig.id = s0.id
        · simp only [h, if_pos rfl] at ht
          exact absurd ht (by simp)
        · simp only [if_neg h] at ht
          exact hgood orig horig t ht
  · intro s hs
    have hp := List.find?_some hs
    simpa [sessionTokenMatches] using hp

/-- Witness for `tokens_stored_hashed` on the empty store (which
trivially satisfies the invariant). -/
theorem tokens_stored_hashed_witness :
    goodStore demoHash emptyStore ∧
    (goodStore demoHash
      (getOrCreateSession demoHash "f-uuid" emptyStore (some "t-1") "en" none 0).1 ∧
     goodStore demoHash (migrateSession demoHash emptyStore "t-2" "user-9").1 ∧
     (∀ s, findSessionByToken demoHash emptyStore "t-3" = some s →
       s.session_token = some (demoHash "t-3"))) :=
  ⟨by intro s hs; simp [emptyStore] at hs,
   tokens_stored_hashed demoHash "f-uuid" emptyStore (some "t-1") "en" none 0
     "t-3" "t-2" "user-9" (by intro s hs; simp [emptyStore] at hs)⟩

/-- A failed token lookup makes `migrate_session` answer 404 and leave
the store unchanged. -/
theorem migrateSession_of_find_none (hash : String → String) (st : Store)
    (tok uid : String) (h : findSessionByToken hash st tok = none) :
    migrateSession hash st tok uid = (st, Except.error 404) := by
  simp [migrateSession, h]

/-- Claim C8: on a store whose session ids are keyed consistently (at
most one session row carries the presented token's hash — the situation
the sequential create-then-lookup flow maintains), the first migrate call
with an anonymous session's token succeeds, the matched row ends up with
the user bound and the token column cleared in that single update, and a
second migrate call with the same token fails with 404 and leaves the
store unchanged. -/
theorem migrate_twice_not_found (hash : String → String) (st : Store)
    (tok uid uid2 : String)
    (hx : ∃ s ∈ st.sessions, s.session_token = some (hash tok))
    (huniq : ∀ s1 ∈ st.sessions, ∀ s2 ∈ st.sessions,
      s1.session_token = some (hash tok) → s2.session_token = some (hash tok) →
      s1.id = s2.id) :
    (migrateSession hash st tok uid).2 = Except.ok () ∧
    (∃ s ∈ (migrateSession hash st tok uid).1.sessions,
      s.user_id = some uid ∧ s.session_token = none) ∧
    migrateSession hash (migrateSession hash st tok uid).1 tok uid2 =
      ((migrateSession hash st tok uid).1, Except.error 404) := by
  obtain ⟨s0, hs0mem, hs0tok⟩ := hx
  obtain ⟨s1, hf⟩ : ∃ s1, findSessionByToken hash st tok = some s1 := by
    cases hf : findSessionByToken hash st tok with
    | some s1 => exact ⟨s1, rfl⟩
    | none =>
        exact absurd (by simp [sessionTokenMatches, hs0tok])
          (List.find?_eq_none.mp hf s0 hs0mem)
  have hs1mem : s1 ∈ st.sessions := List.mem_of_find?_eq_some hf
  have hs1tok : s1.session_token = some (hash tok) := by
    simpa [sessionTokenMatches] using List.find?_some hf
  have hmig : migrateSession hash st tok uid =
      ({ st with sessions := st.sessions.map (fun x =>
          if x.id = s1.id then { x with user_id := some uid, session_token := none }
          else x) },
       Except.ok ()) := by
    simp [migrateSession, hf]
  refine ⟨by rw [hmig], ?_, ?_⟩
  · rw [hmig]
    refine ⟨{ s1 with user_id := some uid, session_token := none }, ?_, rfl, rfl⟩
    exact List.mem_map.mpr ⟨s1, hs1mem, by simp⟩
  · have hnone :
        findSessionByToken hash (migrateSession hash st tok uid).1 tok = none := by
      rw [hmig]
      apply List.find?_eq_none.mpr
      intro x hx'
      have hx2 : x ∈ st.sessions.map (fun x =>
          if x.id = s1.id then { x with user_id := some uid, session_token := none }
          else x) := hx'
      obtain ⟨y, hy, rfl⟩ := List.mem_map.mp hx2
      by_cases h : y.id = s1.id
      · simp [sessionTokenMatches, h]
      · simp only [if_neg h, sessionTokenMatches, beq_iff_eq]
        intro hyt
        exact h (huniq y hy s1 hs1mem hyt hs1tok)
    exact migrateSession_of_find_none hash (migrateSession hash st tok uid).1
      tok uid2 hnone

/-- Concrete store for the migration witness: one anonymous session. -/
def migrateDemoStore : Store :=
  { sessions := [{ id := 3, user_id := none,
                   session_token := some (demoHash "anon-tok"),
                   language := "en", last_activity := 0 }],
    messages := [], feedbacks := [], nextId := 4 }

/-- Witness for `migrate_twice_not_found` on a one-session store. -/
theorem migrate_twice_not_found_witness :
    (∃ s ∈ migrateDemoStore.sessions,
      s.session_token = some (demoHash "anon-tok")) ∧
    (∀ s1 ∈ migrateDemoStore.sessions, ∀ s2 ∈ migrateDemoStore.sessions,
      s1.session_token = some (demoHash "anon-tok") →
      s2.session_token = some (demoHash "anon-tok") → s1.id = s2.id) ∧
    ((migrateSession demoHash migrateDemoStore "anon-tok" "user-1").2 = Except.ok () ∧
     (∃ s ∈ (migrateSession demoHash migrateDemoStore "anon-tok" "user-1").1.sessions,
       s.user_id = some "user-1" ∧ s.session_token = none) ∧
     migrateSession demoHash
         (migrateSession demoHash migrateDemoStore "anon-tok" "user-1").1
         "anon-tok" "user-2" =
       ((migrateSession demoHash migrateDemoStore "anon-tok" "user-1").1,
        Except.error 404)) :=
  ⟨by decide, by decide,
   migrate_twice_not_found demoHash migrateDemoStore "anon-tok" "user-1" "user-2"
     (by decide) (by decide)⟩

/-- Lemma: `get_or_create_session` never writes to the `chat_messages` table. -/
theorem getOrCreateSession_messages (hash : String → String) (freshToken : String)
    (st : Store) (presented : Option String) (language : String)
    (userId : Option String) (now : Nat) :
    (getOrCreateSession hash freshToken st presented language userId now).1.messages =
      st.messages := by
  cases presented with
  | none => rfl
  | some tok =>
      by_cases h : tok = ""
      · simp [getOrCreateSession, h, insertSession]
      · cases hf : findSessionByToken hash st tok <;>
          simp [getOrCreateSession, h, hf, insertSession]

/-- Claim C1: when the generation stream raises after relaying a prefix
of chunks, the request's net effect on the Message Ledger is exactly the
already-persisted user turn — no assistant message is appended — and the
event stream is the relayed chunks followed by the terminal
`streaming_failed` error event, which no instantiation of the success
terminal event can equal. -/
theorem stream_error_terminal (hash : String → String) (freshToken : String)
    (st : Store) (query : String) (presented : Option String) (language : String)
    (selected : Option String) (userId : Option String)
    (results : List SearchResult) (genChunks : List String) (e requestId : String)
    (now : Nat) (hres : results ≠ []) :
    ((chatQueryCore hash freshToken st query presented language selected userId
        results genChunks (some e) requestId now).1.messages.map
          (fun m => (m.role, m.content)) =
      st.messages.map (fun m => (m.role, m.content)) ++ [("user", query)]) ∧
    ((chatQueryCore hash freshToken st query presented language selected userId
        results genChunks (some e) requestId now).1.messages.filter
          (fun m => m.role == "assistant") =
      st.messages.filter (fun m => m.role == "assistant")) ∧
    ((chatQueryCore hash freshToken st query presented language selected userId
        results genChunks (some e) requestId now).2.1 =
      genChunks.map SSEEvent.chunk ++
        [SSEEvent.error "streaming_failed" e requestId]) ∧
    (∀ mid tokC cits,
      SSEEvent.error "streaming_failed" e requestId ≠ SSEEvent.done mid tokC cits) := by
  have hchunks : (searchRelevantChunks results language selected).chunks ≠ [] := by
    simp only [searchRelevantChunks, if_neg hres]
    simp [hres]
  have hstream : generateStreamingResponse genChunks (some e)
      (searchRelevantChunks results language selected) language =
      (genChunks, some e, true) := by
    simp [generateStreamingResponse, hchunks]
  have hout : chatQueryCore hash freshToken st query presented language selected
      userId results genChunks (some e) requestId now =
      ((saveMessage
          (getOrCreateSession hash freshToken st presented language userId now).1
          (getOrCreateSession hash freshToken st presented language userId now).2.1
          "user" query emptyMeta now).1,
       genChunks.map SSEEvent.chunk ++
         [SSEEvent.error "streaming_failed" e requestId],
       true) := by
    simp only [chatQueryCore, ragQuery, hstream, eventGenerator]
  refine ⟨?_, ?_, by rw [hout], by intro mid tokC cits h; exact SSEEvent.noConfusion h⟩
  · rw [hout]
    show ((getOrCreateSession hash freshToken st presented language userId now).1.messages
        ++ [_]).map (fun (m : ChatMessageRow) => (m.role, m.content)) = _
    rw [getOrCreateSession_messages]
    simp
  · rw [hout]
    show ((getOrCreateSession hash freshToken st presented language userId now).1.messages
        ++ [_]).filter (fun (m : ChatMessageRow) => m.role == "assistant") = _
    rw [getOrCreateSession_messages]
    simp

/-- Search result used by the stream-error witness. -/
def demoResult : SearchResult :=
  { payload := { text := "Robots are machines.", chapter_id := "1.2",
                 chapter_title := "Intro" },
    score := (4 : Rat) / 5 }

/-- Witness for `stream_error_terminal`: a concrete query whose generation
stream raises after one relayed chunk. -/
theorem stream_error_terminal_witness :
    ([demoResult] ≠ []) ∧
    (((chatQueryCore demoHash "fresh-uuid" emptyStore "What is a robot?" none "en"
        none none [demoResult] ["Robots are "] (some "boom") "req-7" 0).1.messages.map
          (fun m => (m.role, m.content)) =
      emptyStore.messages.map (fun m => (m.role, m.content)) ++
        [("user", "What is a robot?")]) ∧
     ((chatQueryCore demoHash "fresh-uuid" emptyStore "What is a robot?" none "en"
        none none [demoResult] ["Robots are "] (some "boom") "req-7" 0).1.messages.filter
          (fun m => m.role == "assistant") =
      emptyStore.messages.filter (fun m => m.role == "assistant")) ∧
     ((chatQueryCore demoHash "fresh-uuid" emptyStore "What is a robot?" none "en"
        none none [demoResult] ["Robots are "] (some "boom") "req-7" 0).2.1 =
      ["Robots are "].map SSEEvent.chunk ++
        [SSEEvent.error "streaming_failed" "boom" "req-7"]) ∧
     (∀ mid tokC cits,
       SSEEvent.error "streaming_failed" "boom" "req-7" ≠
         SSEEvent.done mid tokC cits)) :=
  ⟨by decide,
   stream_error_terminal demoHash "fresh-uuid" emptyStore "What is a robot?" none "en"
     none none [demoResult] ["Robots are "] "boom" "req-7" 0 (by decide)⟩

/-- Invariants of the citation-collecting loop, generalized over the
`seen_chapters` accumulator: emitted citations avoid `seen` and the empty
chapter id, their chapter ids are pairwise distinct, they appear in the
hits' rank order (sublist), and each one was built from the first hit
carrying its chapter id. -/
theorem buildCitations_spec (language : String) (rs : List SearchResult) :
    ∀ seen : List String,
      (∀ c ∈ buildCitations language seen rs, c.chapter_id ∉ seen ∧ c.chapter_id ≠ "") ∧
      ((buildCitations language seen rs).map Citation.chapter_id).Nodup ∧
      ((buildCitations language seen rs).map Citation.chapter_id).Sublist
        (rs.map (fun r => r.payload.chapter_id)) ∧
      (∀ c ∈ buildCitations language seen rs,
        ∃ r, rs.find? (fun r => r.payload.chapter_id == c.chapter_id) = some r ∧
          c = mkCitation language r) := by
  induction rs with
  | nil => intro seen; simp [buildCitations]
  | cons r rs ih =>
      intro seen
      by_cases h : r.payload.chapter_id ≠ "" ∧ r.payload.chapter_id ∉ seen
      · have hb : buildCitations language seen (r :: rs) =
            mkCitation language r ::
              buildCitations language (r.payload.chapter_id :: seen) rs := by
          simp [buildCitations, h]
        obtain ⟨ih1, ih2, ih3, ih4⟩ := ih (r.payload.chapter_id :: seen)
        rw [hb]
        refine ⟨?_, ?_, ?_, ?_⟩
        · intro c hc
          rcases List.mem_cons.mp hc with rfl | hc'
          · exact ⟨h.2, h.1⟩
          · have hcseen := ih1 c hc'
            exact ⟨fun hs => hcseen.1 (List.mem_cons_of_mem _ hs), hcseen.2⟩
        · simp only [List.map_cons]
          refine List.nodup_cons.mpr ⟨?_, ih2⟩
          intro hmem
          obtain ⟨c, hc, hcid⟩ := List.mem_map.mp hmem
          exact (ih1 c hc).1 (by rw [hcid]; exact List.mem_cons_self _ _)
        · simp only [List.map_cons]
          exact List.Sublist.cons₂ _ ih3
        · intro c hc
          rcases List.mem_cons.mp hc with rfl | hc'
          · refine ⟨r, ?_, rfl⟩
            rw [List.find?_cons_of_pos _ (by simp [mkCitation])]
          · obtain ⟨r', hr', hcr'⟩ := ih4 c hc'
            have hne : ¬ (r.payload.chapter_id == c.chapter_id) = true := by
              simp only [beq_iff_eq]
              intro he
              exact (ih1 c hc').1 (he ▸ List.mem_cons_self _ _)
            exact ⟨r',
              by rw [@List.find?_cons_of_neg _
                  (fun r => r.payload.chapter_id == c.chapter_id) r rs hne]
                 exact hr',
              hcr'⟩
      · have hb : buildCitations language seen (r :: rs) =
            buildCitations language seen rs := by
          simp [buildCitations, h]
        obtain ⟨ih1, ih2, ih3, ih4⟩ := ih seen
        rw [hb]
        refine ⟨ih1, ih2, ?_, ?_⟩
        · simp only [List.map_cons]
          exact ih3.cons _
        · intro c hc
          obtain ⟨r', hr', hcr'⟩ := ih4 c hc
          have hc1 := ih1 c hc
          have hne : ¬ (r.payload.chapter_id == c.chapter_id) = true := by
            simp only [beq_iff_eq]
            rcases not_and_or.mp h with h0 | h0
            · have h0' : r.payload.chapter_id = "" := not_not.mp h0
              rw [h0']
              exact fun he => hc1.2 he.symm
            · have h0' : r.payload.chapter_id ∈ seen := not_not.mp h0
              intro he
              exact hc1.1 (he ▸ h0')
          exact ⟨r',
            by rw [@List.find?_cons_of_neg _
                (fun r => r.payload.chapter_id == c.chapter_id) r rs hne]
               exact hr',
            hcr'⟩

/-- Claim C6: in every produced `RAGResult`, citations are unique by
chapter identifier, their order is a sublist of the search results'
descending-relevance order, and each citation equals the citation built
from the first (highest-ranked) search result bearing its chapter id. -/
theorem citations_unique_first_wins (results : List SearchResult) (language : String)
    (selected : Option String) :
    ((searchRelevantChunks results language selected).citations.map
      Citation.chapter_id).Nodup ∧
    ((searchRelevantChunks results language selected).citations.map
      Citation.chapter_id).Sublist (results.map (fun r => r.payload.chapter_id)) ∧
    (∀ c ∈ (searchRelevantChunks results language selected).citations,
      ∃ r, results.find? (fun r => r.payload.chapter_id == c.chapter_id) = some r ∧
        c = mkCitation language r) := by
  by_cases hr : results = []
  · subst hr
    simp [searchRelevantChunks]
  · have hcit : (searchRelevantChunks results language selected).citations =
        buildCitations language [] results := by
      simp [searchRelevantChunks, hr]
    rw [hcit]
    obtain ⟨_, h2, h3, h4⟩ := buildCitations_spec language results []
    exact ⟨h2, h3, h4⟩

end RagChatbot
